import Mathlib

/-!
Shallow embedding of the weather pipeline in
`src/api/v1/weather/weatherObserve.js` (smart-unity-backend).

Numbers are modelled by `ℚ`; JavaScript runtime values that can flow
through the formatter and the sentinel validator are modelled by `JSVal`
(number / NaN / null / undefined / string).  `Math.round` is `⌊q + 1/2⌋`,
which agrees with JS rounding on every rational.  Transcendental
library calls (`Math.sin`, `Math.pow`, `Math.random`, `Date`, `fetch`)
are supplied through an explicit environment record `Env`, so every
definition stays computable and deterministic in its inputs.
-/

namespace SmartUnity

/-- A JavaScript runtime value, restricted to the shapes that occur in the
weather pipeline: numbers, `NaN`, `null`, `undefined` and strings. -/
inductive JSVal where
  | undef : JSVal
  | null : JSVal
  | nan : JSVal
  | num (q : ℚ) : JSVal
  | str (s : String) : JSVal
deriving DecidableEq

/-- JS `Math.round`: round half towards positive infinity. -/
def jsRound (q : ℚ) : ℤ := ⌊q + 1/2⌋

/-- All characters are decimal digits. -/
def charsAreDigits : List Char → Bool
  | [] => true
  | c :: cs => c.isDigit && charsAreDigits cs

/-- Numeric value of a digit list (most significant first). -/
def digitsToNat : List Char → ℕ → ℕ
  | [], acc => acc
  | c :: cs, acc => digitsToNat cs (10 * acc + (c.toNat - 48))

/-- JS `ToNumber` on strings, restricted to the fragment the pipeline can
produce: the empty string converts to `0`, an all-digit string to its
decimal value, and every other string (in particular every
percent-suffixed string such as `"65%"`) to NaN (`none`). -/
def strToNumberQ (s : String) : Option ℚ :=
  match s.toList with
  | [] => some 0
  | c :: cs => if charsAreDigits (c :: cs) then some ((digitsToNat (c :: cs) 0 : ℕ) : ℚ) else none

/-- JS `ToNumber` coercion: `none` models NaN. -/
def jsToNumber : JSVal → Option ℚ
  | .num q => some q
  | .null => some 0
  | .undef => none
  | .nan => none
  | .str s => strToNumberQ s

/-- `isValidNASAValue` (source lines 23-25):
`value !== undefined && value !== null && value !== -999 && value > -900`.
A string operand of `>` is coerced via `ToNumber`; `NaN > -900` is false. -/
def isValidNASAValue : JSVal → Bool
  | .undef => false
  | .null => false
  | .nan => false
  | .num q => decide (q ≠ -999) && decide (q > -900)
  | .str s =>
    match strToNumberQ s with
    | some q => decide (q > -900)
    | none => false

/-- `getValidNASAValue` (source lines 28-30), default fallback `0`. -/
def getValidNASAValue (value : JSVal) (defaultValue : JSVal := .num 0) : JSVal :=
  if isValidNASAValue value then value else defaultValue

/-- `formatToOneDecimal` (source lines 33-36):
`null`/`undefined` pass through, otherwise `Math.round(value * 10) / 10`
with JS numeric coercion of the operand. -/
def formatToOneDecimal : JSVal → JSVal
  | .null => .null
  | .undef => .undef
  | v =>
    match jsToNumber v with
    | some q => .num ((jsRound (q * 10) : ℤ) / 10)
    | none => .nan

/-- `formatPercentage` (source lines 39-42): `null`/`undefined` pass
through, otherwise the template string `` `${Math.round(value)}%` ``;
`Math.round` of a non-numeric string is NaN, printed `"NaN"`. -/
def formatPercentage : JSVal → JSVal
  | .null => .null
  | .undef => .undef
  | v =>
    match jsToNumber v with
    | some q => .str (toString (jsRound q) ++ "%")
    | none => .str "NaN%"

/-- The `current` record of a weather object.  Fields the producing path
does not set are `undef` (absent JS property); provenance strings that
only some producers set are `Option String`. -/
structure CurrentW where
  temperature : JSVal
  temperature_max : JSVal
  temperature_min : JSVal
  humidity : JSVal
  wind_speed : JSVal
  wind_speed_50m : JSVal
  precipitation : JSVal
  pressure : JSVal
  solar_radiation : JSVal
  cloud_cover : JSVal
  feels_like : JSVal
  conditions : String
  weather_code : String
  data_quality : String
  model : Option String
  simulation_type : Option String
deriving DecidableEq

/-- One forecast day. -/
structure ForecastDay where
  date : String
  temperature : JSVal
  max_temp : JSVal
  min_temp : JSVal
  precipitation : JSVal
  wind_speed : JSVal
  humidity : JSVal
  pressure : JSVal
  weather_code : String
  conditions : String
  feels_like : JSVal
  climate_note : Option String
  model_confidence : JSVal
deriving DecidableEq

/-- The synthetic historical series attached by the route handler. -/
structure HistoricalData where
  temperature : List ℚ
  precipitation : List ℚ
  wind : List ℚ
  humidity : List ℚ
deriving DecidableEq

/-- A weather object as produced by an adapter or the synthetic model and
enriched by the route handler (`historicalData`, `lat`, `lon`,
`isDesert`); `none` marks an absent JS property. -/
structure WeatherObj where
  current : Option CurrentW
  forecast : Option (List ForecastDay)
  location : Option String
  data_source : Option String
  nasa_mission : Option String
  climate_note : Option String
  disclaimer : Option String
  historicalData : Option HistoricalData
  lat : Option ℚ
  lon : Option ℚ
  isDesert : Option Bool
deriving DecidableEq

/-- User threshold set parsed from the `thresholds` query parameter. -/
structure Thresholds where
  temperature : Option ℚ
  precipitation : Option ℚ
  windSpeed : Option ℚ
deriving DecidableEq

/-- Output of `calculateProbabilities`: a key is `none` exactly when the
corresponding JS object key is absent. -/
structure ProbResult where
  temperature_above : Option ℤ
  precipitation_above : Option ℤ
  windspeed_above : Option ℤ
deriving DecidableEq

/-- One desert bounding box (source lines 205-222). -/
structure DesertRegion where
  name : String
  latMin : ℚ
  latMax : ℚ
  lonMin : ℚ
  lonMax : ℚ
deriving DecidableEq

/-- `DESERT_REGIONS` (source lines 205-222), literal bounds. -/
def DESERT_REGIONS : List DesertRegion :=
  [ { name := "Sahara", latMin := 15, latMax := 30, lonMin := -20, lonMax := 50 },
    { name := "Arabian", latMin := 15, latMax := 30, lonMin := 35, lonMax := 60 },
    { name := "Gobi", latMin := 35, latMax := 50, lonMin := 85, lonMax := 120 },
    { name := "Australian", latMin := -30, latMax := -20, lonMin := 120, lonMax := 150 },
    { name := "North American", latMin := 25, latMax := 40, lonMin := -120, lonMax := -100 },
    { name := "Kalahari", latMin := -25, latMax := -15, lonMin := 15, lonMax := 25 },
    { name := "Thar", latMin := 20, latMax := 30, lonMin := 65, lonMax := 75 },
    { name := "Syrian", latMin := 30, latMax := 35, lonMin := 35, lonMax := 45 } ]

/-- JS comparison `c ≤ v` on a possibly-NaN number (`none` = NaN):
every comparison with NaN is false. -/
def qGeB (v : Option ℚ) (c : ℚ) : Bool :=
  match v with
  | some q => decide (c ≤ q)
  | none => false

/-- JS comparison `v ≤ c` on a possibly-NaN number. -/
def qLeB (v : Option ℚ) (c : ℚ) : Bool :=
  match v with
  | some q => decide (q ≤ c)
  | none => false

/-- JS comparison `Math.abs(v) < c` on a possibly-NaN number. -/
def absLtB (v : Option ℚ) (c : ℚ) : Bool :=
  match v with
  | some q => decide (|q| < c)
  | none => false

/-- `isDesertRegion` (source lines 225-230):
`DESERT_REGIONS.some(d => lat >= d.latMin && lat <= d.latMax && lon >= d.lonMin && lon <= d.lonMax)`. -/
def isDesertRegion (lat lon : Option ℚ) : Bool :=
  DESERT_REGIONS.any fun desert =>
    qGeB lat desert.latMin && qLeB lat desert.latMax &&
    qGeB lon desert.lonMin && qLeB lon desert.lonMax

/-- Environment of non-deterministic / external inputs of one request:
the two `Math.sin` terms fixed by the current month and hour, the stream
of `Math.random()` draws, `Math.pow(·, 0.16)` as an oracle (the exponent
is irrational, so the function is abstract), JS `parseFloat` (`none` =
NaN), the ISO date string of day offset `i`, the reverse-geocoder result
and the current ISO timestamp. -/
structure Env where
  seasonal : ℚ
  diurnal : ℚ
  rand : ℕ → ℚ
  pow016 : ℚ → ℚ
  parseFloat : String → Option ℚ
  dateStr : ℕ → String
  locationName : Option String
  nowISO : String

/-- `getRealisticTemperature` (source lines 474-492); `lat` may be NaN
(`none`), in which case every `absLat < c` comparison is false. -/
def getRealisticTemperature (lat : Option ℚ) (isDesert : Bool) (env : Env) : ℚ :=
  if isDesert then
    (if absLtB lat 25 then 35 else 30) + env.seasonal * 8 + env.diurnal * 10
  else
    if absLtB lat 15 then 28 + env.seasonal * 2
    else if absLtB lat 35 then 22 + env.seasonal * 6
    else if absLtB lat 55 then 15 + env.seasonal * 10
    else 5 + env.seasonal * 8

/-- `getRealisticMaxTemperature` (source lines 494-500); `r` is the
`Math.random()` draw. -/
def getRealisticMaxTemperature (lat : Option ℚ) (isDesert : Bool) (env : Env) (r : ℚ) : ℚ :=
  let baseTemp := getRealisticTemperature lat isDesert env
  if isDesert then baseTemp + 12 + r * 5 else baseTemp + 5 + r * 3

/-- `getRealisticMinTemperature` (source lines 502-508). -/
def getRealisticMinTemperature (lat : Option ℚ) (isDesert : Bool) (env : Env) (r : ℚ) : ℚ :=
  let baseTemp := getRealisticTemperature lat isDesert env
  if isDesert then baseTemp - 15 - r * 5 else baseTemp - 3 - r * 2

/-- `getRealisticHumidity` (source lines 510-519). -/
def getRealisticHumidity (lat : Option ℚ) (isDesert : Bool) (r : ℚ) : ℚ :=
  if isDesert then 20 + r * 25
  else if absLtB lat 15 then 75 + r * 10
  else if absLtB lat 35 then 65 + r * 15
  else 60 + r * 20

/-- `getRealisticWindSpeed` (source lines 521-530). -/
def getRealisticWindSpeed (lat : Option ℚ) (isDesert : Bool) (r : ℚ) : ℚ :=
  if isDesert then 3.5 + r * 3
  else if absLtB lat 15 then 3.0 + r * 2
  else if absLtB lat 35 then 2.5 + r * 1.5
  else 2.0 + r * 1

/-- `getRealisticPrecipitation` (source lines 532-537); `r1` decides the
rain event, `r2` its amount. -/
def getRealisticPrecipitation (isDesert : Bool) (r1 r2 : ℚ) : ℚ :=
  if isDesert then (if r1 < 0.03 then r2 * 1 else 0)
  else (if r1 < 0.3 then r2 * 8 else 0)

/-- `getRealisticCloudCover` (source lines 539-544). -/
def getRealisticCloudCover (isDesert : Bool) (r : ℚ) : ℚ :=
  if isDesert then 5 + r * 20 else 30 + r * 50

/-- `getRealisticPressure` (source lines 546-551). -/
def getRealisticPressure (lat : Option ℚ) (r : ℚ) : ℚ :=
  if absLtB lat 15 then 1010 + r * 5
  else if absLtB lat 35 then 1013 + r * 5
  else 1015 + r * 5

/-- `getNASA_WeatherCode` (source lines 806-815): generic variant on
precipitation and humidity. -/
def getNASA_WeatherCode (precipitation humidity : ℚ) : String :=
  if precipitation > 12 then "11"
  else if precipitation > 6 then "10"
  else if precipitation > 2 then "09"
  else if precipitation > 0 then "09"
  else if humidity > 85 then "04"
  else if humidity > 70 then "03"
  else if humidity > 60 then "02"
  else "01"

/-- `getNASA_WeatherCondition` (source lines 817-832): generic
humidity-based variant with desert-specific clear labels. -/
def getNASA_WeatherCondition (precipitation humidity : ℚ) (isDesert : Bool) : String :=
  if precipitation > 12 then "Thunderstorm"
  else if precipitation > 6 then "Heavy Rain"
  else if precipitation > 2 then "Rain"
  else if precipitation > 0 then "Light Rain"
  else if humidity > 85 then "Overcast"
  else if humidity > 70 then "Mostly Cloudy"
  else if humidity > 60 then "Partly Cloudy"
  else if isDesert && humidity < 25 then "Clear and Dry"
  else if isDesert && humidity < 35 then "Clear Sky"
  else if isDesert then "Mostly Clear"
  else "Clear Sky"

/-- Deterministic tail of `getNASA_ConditionsFromPOWER` (source lines
777-786), taking the precipitation and cloud cover after the sentinel
resolution of lines 771-775 (that resolution draws on `Math.random` for
its fallbacks and is orthogonal to the threshold mapping). -/
def getNASA_ConditionsFromPOWER (precipitation cloudCover : ℚ) (isDesert : Bool) : String :=
  if precipitation > 10 then "Heavy Rain"
  else if precipitation > 5 then "Rain"
  else if precipitation > 2 then "Light Rain"
  else if precipitation > 0 then "Drizzle"
  else if cloudCover > 80 then "Overcast"
  else if cloudCover > 50 then "Partly Cloudy"
  else if cloudCover > 20 then "Mostly Clear"
  else if isDesert then "Clear and Dry"
  else "Clear Sky"

/-- `calculateNASA_FeelsLike` (source lines 834-857).  `pw` stands for
`Math.pow(windSpeed * 3.6, 0.16)`, supplied by `Env.pow016` at the call
sites (the exponentiation is transcendental and abstracted as an
oracle; the branch structure and every coefficient are literal). -/
def calculateNASA_FeelsLike (temp humidity windSpeed : ℚ) (isDesert : Bool) (pw : ℚ) : ℚ :=
  if isDesert then
    if temp ≥ 30 then temp + (temp - 25) * 0.1
    else if temp ≤ 15 ∧ windSpeed > 2 then
      13.12 + 0.6215 * temp - 11.37 * pw + 0.3965 * temp * pw
    else temp
  else
    if temp ≥ 27 then temp + 0.5 * (humidity / 100) * (temp - 20)
    else if temp ≤ 10 ∧ windSpeed > 1.34 then
      13.12 + 0.6215 * temp - 11.37 * pw + 0.3965 * temp * pw
    else temp

/-- One day of `generateNASA_ClimateForecast` (source lines 703-731).
Each `Math.random()` draw of day `i` is a distinct entry of `env.rand`. -/
def climateDay (lat : Option ℚ) (isDesert : Bool) (env : Env) (i : ℕ) : ForecastDay :=
  let baseTemp := getRealisticTemperature lat isDesert env
  let maxTemp := getRealisticMaxTemperature lat isDesert env (env.rand (10 * i))
  let minTemp := getRealisticMinTemperature lat isDesert env (env.rand (10 * i + 1))
  let precipitation := getRealisticPrecipitation isDesert (env.rand (10 * i + 2)) (env.rand (10 * i + 3))
  let humidity := getRealisticHumidity lat isDesert (env.rand (10 * i + 4))
  let windSpeed := getRealisticWindSpeed lat isDesert (env.rand (10 * i + 5))
  let pressure := getRealisticPressure lat (env.rand (10 * i + 6))
  { date := env.dateStr i,
    temperature := .num baseTemp,
    max_temp := .num maxTemp,
    min_temp := .num minTemp,
    precipitation := .num precipitation,
    wind_speed := .num windSpeed,
    humidity := .num humidity,
    pressure := .num pressure,
    weather_code := getNASA_WeatherCode precipitation humidity,
    conditions := getNASA_WeatherCondition precipitation humidity isDesert,
    feels_like := .num (calculateNASA_FeelsLike baseTemp humidity windSpeed isDesert
      (env.pow016 (windSpeed * 3.6))),
    climate_note := some (if isDesert then "Desert Climate" else "Standard Climate"),
    model_confidence := .num (0.85 + env.rand (10 * i + 7) * 0.1) }

/-- `generateNASA_ClimateForecast` (source lines 699-734): seven
independently generated days. -/
def generateNASA_ClimateForecast (lat lon : Option ℚ) (isDesert : Bool) (env : Env) :
    List ForecastDay :=
  (List.range 7).map (climateDay lat isDesert env)

instance : Inhabited ForecastDay :=
  ⟨{ date := "", temperature := .undef, max_temp := .undef, min_temp := .undef,
     precipitation := .undef, wind_speed := .undef, humidity := .undef,
     pressure := .undef, weather_code := "", conditions := "", feels_like := .undef,
     climate_note := none, model_confidence := .undef }⟩

/-- The `current` record built from `forecast[0]` in
`generateNASA_Model_Data` (source lines 673-684): keys the source does
not set are absent (`undef` / `none`). -/
def modelCurrentFromDay (d0 : ForecastDay) : CurrentW :=
  { temperature := d0.temperature,
    feels_like := d0.feels_like,
    humidity := d0.humidity,
    wind_speed := d0.wind_speed,
    pressure := d0.pressure,
    conditions := d0.conditions,
    weather_code := d0.weather_code,
    data_quality := "NASA Climate Model Simulation",
    model := some "GEOS-5 Atmospheric Model",
    simulation_type := some "Numerical Weather Prediction",
    temperature_max := .undef,
    temperature_min := .undef,
    wind_speed_50m := .undef,
    precipitation := .undef,
    solar_radiation := .undef,
    cloud_cover := .undef }

/-- `generateNASA_Model_Data` (source lines 670-697).  The source's
`location` is the result of `getLocationName(lat, lon) || template`
where the promise is not awaited, so the field holds a pending promise
(serialised as an empty object); no claim touches it and it is modelled
as `none`. -/
def generateNASA_Model_Data (lat lon : Option ℚ) (isDesert : Bool) (env : Env) : WeatherObj :=
  let forecast := generateNASA_ClimateForecast lat lon isDesert env
  let current := modelCurrentFromDay forecast.headI
  { current := some current,
    forecast := some forecast,
    location := none,
    data_source := some "NASA Climate Simulation",
    nasa_mission := some "Global Modeling and Assimilation Office",
    climate_note := some (if isDesert then "Desert Climate Region" else "Standard Climate Region"),
    disclaimer := some "Data simulated using NASA climate models and historical patterns",
    historicalData := none,
    lat := none,
    lon := none,
    isDesert := none }

/-- The `current` part of `formatWeatherData` (source lines 51-69),
including the `!== undefined` guards of lines 57, 62 and 65. -/
def formatCurrent (c : CurrentW) : CurrentW :=
  { c with
    humidity := formatPercentage c.humidity,
    temperature := formatToOneDecimal c.temperature,
    temperature_max := formatToOneDecimal c.temperature_max,
    temperature_min := formatToOneDecimal c.temperature_min,
    wind_speed := formatToOneDecimal c.wind_speed,
    wind_speed_50m :=
      if c.wind_speed_50m ≠ JSVal.undef then formatToOneDecimal c.wind_speed_50m
      else c.wind_speed_50m,
    precipitation := formatToOneDecimal c.precipitation,
    pressure := formatToOneDecimal c.pressure,
    solar_radiation :=
      if c.solar_radiation ≠ JSVal.undef then formatToOneDecimal c.solar_radiation
      else c.solar_radiation,
    cloud_cover :=
      if c.cloud_cover ≠ JSVal.undef then formatPercentage c.cloud_cover
      else c.cloud_cover,
    feels_like := formatToOneDecimal c.feels_like }

/-- The per-day part of `formatWeatherData` (source lines 72-84). -/
def formatDay (day : ForecastDay) : ForecastDay :=
  { day with
    temperature := formatToOneDecimal day.temperature,
    max_temp := formatToOneDecimal day.max_temp,
    min_temp := formatToOneDecimal day.min_temp,
    precipitation := formatToOneDecimal day.precipitation,
    wind_speed := formatToOneDecimal day.wind_speed,
    humidity := formatPercentage day.humidity,
    pressure := formatToOneDecimal day.pressure,
    feels_like := formatToOneDecimal day.feels_like }

/-- `formatWeatherData` (source lines 45-87); the `!weatherObj` guard
cannot fire for a present object, and the truthiness tests on `current`
and `forecast` are the `Option.map`s. -/
def formatWeatherData (weatherObj : WeatherObj) : WeatherObj :=
  { weatherObj with
    current := weatherObj.current.map formatCurrent,
    forecast := weatherObj.forecast.map (List.map formatDay) }

/-- `calculateTemperatureProbability` (source lines 90-95).  The first
argument is the current temperature, which the source never uses. -/
def calculateTemperatureProbability (temperature : JSVal) (threshold : ℚ)
    (historicalData : List ℚ) : ℤ :=
  if historicalData.isEmpty then 50
  else jsRound (((historicalData.countP fun temp => decide (temp > threshold)) : ℚ) /
    (historicalData.length : ℚ) * 100)

/-- `calculatePrecipitationProbability` (source lines 97-102). -/
def calculatePrecipitationProbability (precipitation : JSVal) (threshold : ℚ)
    (historicalData : List ℚ) : ℤ :=
  if historicalData.isEmpty then 20
  else jsRound (((historicalData.countP fun precip => decide (precip > threshold)) : ℚ) /
    (historicalData.length : ℚ) * 100)

/-- `calculateWindProbability` (source lines 104-109). -/
def calculateWindProbability (windSpeed : JSVal) (threshold : ℚ)
    (historicalData : List ℚ) : ℤ :=
  if historicalData.isEmpty then 30
  else jsRound (((historicalData.countP fun wind => decide (wind > threshold)) : ℚ) /
    (historicalData.length : ℚ) * 100)

/-- The four series kinds of `generateHistoricalData`. -/
inductive HistType where
  | temperature : HistType
  | precipitation : HistType
  | wind : HistType
  | humidity : HistType
deriving DecidableEq

/-- `generateHistoricalData` (source lines 112-142).  All four base
values are computed up front (consuming their random draws) regardless
of `dataType`, as in the source; `lon` is unused there as well. -/
def generateHistoricalData (lat lon : Option ℚ) (isDesert : Bool) (dataType : HistType)
    (env : Env) (days : ℕ := 365) : List ℚ :=
  let baseTemperature := getRealisticTemperature lat isDesert env
  let basePrecipitation := getRealisticPrecipitation isDesert (env.rand 0) (env.rand 1)
  let baseWind := getRealisticWindSpeed lat isDesert (env.rand 2)
  let baseHumidity := getRealisticHumidity lat isDesert (env.rand 3)
  (List.range days).map fun i =>
    let variation := (env.rand (4 + i) - 0.5) * 2
    match dataType with
    | .temperature => baseTemperature + variation * 8
    | .precipitation => max 0 (basePrecipitation + variation * 3)
    | .wind => max 0 (baseWind + variation * 2)
    | .humidity => max 10 (min 100 (baseHumidity + variation * 15))

/-- `calculateProbabilities` (source lines 145-182): a key is produced
exactly when the matching threshold key is present; the series is
`historicalData?.<kind> || generateHistoricalData(...)` (a present
array, even empty, is truthy). -/
def calculateProbabilities (weatherData : WeatherObj) (thresholds : Thresholds)
    (historicalData : Option HistoricalData) (env : Env) : ProbResult :=
  let currentOf : (CurrentW → JSVal) → JSVal := fun f =>
    (weatherData.current.map f).getD .undef
  { temperature_above :=
      match thresholds.temperature with
      | some th =>
        let tempHistorical :=
          match historicalData with
          | some h => h.temperature
          | none => generateHistoricalData weatherData.lat weatherData.lon
              (weatherData.isDesert.getD false) .temperature env
        some (calculateTemperatureProbability (currentOf (·.temperature)) th tempHistorical)
      | none => none,
    precipitation_above :=
      match thresholds.precipitation with
      | some th =>
        let precipHistorical :=
          match historicalData with
          | some h => h.precipitation
          | none => generateHistoricalData weatherData.lat weatherData.lon
              (weatherData.isDesert.getD false) .precipitation env
        some (calculatePrecipitationProbability (currentOf (·.precipitation)) th precipHistorical)
      | none => none,
    windspeed_above :=
      match thresholds.windSpeed with
      | some th =>
        let windHistorical :=
          match historicalData with
          | some h => h.wind
          | none => generateHistoricalData weatherData.lat weatherData.lon
              (weatherData.isDesert.getD false) .wind env
        some (calculateWindProbability (currentOf (·.wind_speed)) th windHistorical)
      | none => none }

/-- The `while (normalized > 180) normalized -= 360` loop of
`validateCoordinate` (source line 883). -/
def wrapDown (x : ℚ) : ℚ :=
  if h : x > 180 then wrapDown (x - 360) else x
termination_by (⌈(x - 180) / 360⌉).toNat
decreasing_by
  have h1 : (0 : ℚ) < (x - 180) / 360 := by
    apply div_pos
    · linarith
    · norm_num
  have h2 : 1 ≤ ⌈(x - 180) / 360⌉ := Int.ceil_pos.mpr h1
  have e : (x - 360 - 180) / 360 = (x - 180) / 360 - 1 := by ring
  rw [e, Int.ceil_sub_one]
  omega

/-- The `while (normalized < -180) normalized += 360` loop of
`validateCoordinate` (source line 884). -/
def wrapUp (x : ℚ) : ℚ :=
  if h : x < -180 then wrapUp (x + 360) else x
termination_by (⌈(-180 - x) / 360⌉).toNat
decreasing_by
  have h1 : (0 : ℚ) < (-180 - x) / 360 := by
    apply div_pos
    · linarith
    · norm_num
  have h2 : 1 ≤ ⌈(-180 - x) / 360⌉ := Int.ceil_pos.mpr h1
  have e : (-180 - (x + 360)) / 360 = (-180 - x) / 360 - 1 := by ring
  rw [e, Int.ceil_sub_one]
  omega

/-- The coordinate kinds accepted by `validateCoordinate`. -/
inductive CoordType where
  | lat : CoordType
  | lon : CoordType
deriving DecidableEq

/-- `validateCoordinate` (source lines 876-888): `none` input models a
NaN coordinate (the `isNaN` guard); a latitude must lie in [-90, 90],
a longitude is wrapped by repeated ±360. -/
def validateCoordinate (coord : Option ℚ) (type : CoordType) : Option ℚ :=
  match coord with
  | none => none
  | some c =>
    match type with
    | .lat => if -90 ≤ c ∧ c ≤ 90 then some c else none
    | .lon => some (wrapUp (wrapDown c))

/-- Results of the three provider adapters for one request; `none` is an
adapter's soft failure (source lines 274-285). -/
structure ProviderResults where
  power : Option WeatherObj
  gmao : Option WeatherObj
  worldview : Option WeatherObj

/-- The constant `units` object of the success response (source lines
322-328; the temperature string is the source's literal bytes). -/
structure UnitsObj where
  temperature : String
  humidity : String
  wind_speed : String
  precipitation : String
  pressure : String
deriving DecidableEq

def nasaUnits : UnitsObj :=
  { temperature := "째C", humidity := "%", wind_speed := "m/s",
    precipitation := "mm", pressure := "hPa" }

/-- Body of a 200 response of `GET /weather`: the spread of the
formatted weather object (with the provenance fields the success path
overrides) plus the extra keys only the success path adds. -/
structure ResponseBody where
  weather : WeatherObj
  probabilities : Option ProbResult
  coordinates : Option (ℚ × ℚ)
  units : Option UnitsObj
  user_thresholds : Option Thresholds
  timestamp : Option String

/-- A response of the `GET /weather` route: the 400-class error looked
up from the external `ErrorType.json` config on a missing query
parameter, or a 200 payload. -/
inductive HttpResponse where
  | queryMissing : HttpResponse
  | ok (status : ℕ) (body : ResponseBody) : HttpResponse

/-- JS truthiness of a query parameter: absent (`undefined`) and the
empty string are falsy, every other string (including `"0"`) truthy. -/
def strTruthy : Option String → Bool
  | none => false
  | some s => s ≠ ""

/-- JS truthiness test `!v` on a validated coordinate: `null` (`none`)
and the number `0` are falsy. -/
def optFalsy : Option ℚ → Bool
  | none => true
  | some q => decide (q = 0)

/-- JS `a || b` on a nullable string: `null` and `""` fall back. -/
def jsOrString (v : Option String) (d : String) : String :=
  match v with
  | some s => if s = "" then d else s
  | none => d

/-- The `` `Lat: ${lat}, Lon: ${lon}` `` fallback of source line 317. -/
def latLonString (la lo : ℚ) : String :=
  "Lat: " ++ toString la ++ ", Lon: " ++ toString lo

/-- The catch path of the route (source lines 336-342): regenerate
synthetic data from the raw parsed coordinates and answer 200 with the
bare formatted object. -/
def catchResponse (latF lonF : Option ℚ) (env : Env) : HttpResponse :=
  let isDesert := isDesertRegion latF lonF
  let weatherData := generateNASA_Model_Data latF lonF isDesert env
  .ok 200
    { weather := formatWeatherData weatherData,
      probabilities := none,
      coordinates := none,
      units := none,
      user_thresholds := none,
      timestamp := none }

/-- The `GET /weather` handler (source lines 232-343).
`latStr`/`lonStr` are the raw query parameters (`none` = absent);
`userThresholds` is the already-parsed `thresholds` JSON (the
`JSON.parse` plumbing is outside the pipeline) and `thrKeysNonempty`
whether that JSON object had any key.  The three adapter calls are the
abstract `pr` results.  The only `throw` reachable after the coordinate
parse is the `'Invalid coordinates provided'` one, so the catch path
is exactly the falsy-coordinate branch. -/
def weatherRoute (latStr lonStr : Option String) (userThresholds : Thresholds)
    (thrKeysNonempty : Bool) (pr : ProviderResults) (env : Env) : HttpResponse :=
  if !strTruthy latStr || !strTruthy lonStr then .queryMissing
  else
    let latF := latStr.bind env.parseFloat
    let lonF := lonStr.bind env.parseFloat
    let validatedLat := validateCoordinate latF .lat
    let validatedLon := validateCoordinate lonF .lon
    if optFalsy validatedLat || optFalsy validatedLon then
      catchResponse latF lonF env
    else
      let la := validatedLat.getD 0
      let lo := validatedLon.getD 0
      let isDesert := isDesertRegion (some la) (some lo)
      let fromProviders := (pr.power.orElse fun _ => pr.gmao).orElse fun _ => pr.worldview
      let weatherData :=
        fromProviders.getD (generateNASA_Model_Data (some la) (some lo) isDesert env)
      let hist : HistoricalData :=
        { temperature := generateHistoricalData (some la) (some lo) isDesert .temperature env,
          precipitation := generateHistoricalData (some la) (some lo) isDesert .precipitation env,
          wind := generateHistoricalData (some la) (some lo) isDesert .wind env,
          humidity := generateHistoricalData (some la) (some lo) isDesert .humidity env }
      let weatherData2 :=
        { weatherData with
          historicalData := some hist,
          lat := some la,
          lon := some lo,
          isDesert := some isDesert }
      let formattedData := formatWeatherData weatherData2
      let probabilities :=
        if thrKeysNonempty then
          some (calculateProbabilities formattedData userThresholds (some hist) env)
        else none
      .ok 200
        { weather :=
            { formattedData with
              location := some (jsOrString env.locationName (latLonString la lo)),
              data_source := some ((weatherData2.data_source).getD "NASA Climate Simulation"),
              nasa_mission :=
                some ((weatherData2.nasa_mission).getD "Global Modeling and Assimilation Office"),
              climate_note :=
                some (if isDesert then "Desert Climate Region" else "Standard Climate Region") },
          probabilities := probabilities,
          coordinates := some (la, lo),
          units := some nasaUnits,
          user_thresholds := some userThresholds,
          timestamp := some env.nowISO }

/-- Refinement reference for C4: membership in at least one of the eight
axis-aligned boxes exactly as tabulated in spec §4.2, all four edges
inclusive (written from the spec's words, to be compared with
`isDesertRegion` from the source). -/
def specDesertBoxes (lat lon : ℚ) : Prop :=
  (15 ≤ lat ∧ lat ≤ 30 ∧ -20 ≤ lon ∧ lon ≤ 50) ∨
  (15 ≤ lat ∧ lat ≤ 30 ∧ 35 ≤ lon ∧ lon ≤ 60) ∨
  (35 ≤ lat ∧ lat ≤ 50 ∧ 85 ≤ lon ∧ lon ≤ 120) ∨
  (-30 ≤ lat ∧ lat ≤ -20 ∧ 120 ≤ lon ∧ lon ≤ 150) ∨
  (25 ≤ lat ∧ lat ≤ 40 ∧ -120 ≤ lon ∧ lon ≤ -100) ∨
  (-25 ≤ lat ∧ lat ≤ -15 ∧ 15 ≤ lon ∧ lon ≤ 25) ∨
  (20 ≤ lat ∧ lat ≤ 30 ∧ 65 ≤ lon ∧ lon ≤ 75) ∨
  (30 ≤ lat ∧ lat ≤ 35 ∧ 35 ≤ lon ∧ lon ≤ 45)

/-- A concrete already-plausible weather object used to exercise the
formatter claims on an explicit input. -/
def sampleWeather : WeatherObj :=
  { current := some
      { temperature := .num 25, temperature_max := .num 30, temperature_min := .num 20,
        humidity := .num 65, wind_speed := .num 3, wind_speed_50m := .undef,
        precipitation := .num 0, pressure := .num 1013, solar_radiation := .undef,
        cloud_cover := .num 40, feels_like := .num 26,
        conditions := "Clear Sky", weather_code := "01",
        data_quality := "NASA Climate Model Simulation",
        model := none, simulation_type := none },
    forecast := some [],
    location := none, data_source := some "NASA Climate Simulation",
    nasa_mission := none, climate_note := none, disclaimer := none,
    historicalData := none, lat := none, lon := none, isDesert := none }

/-!  ## Theorems -/

/-- C2 counterexample: the claim allows `-900` (it is not undefined, not
null, not `-999`, and not *less than* `-900`), but the code's strict
`value > -900` rejects it: `isValidNASAValue(-900)` is `false`. -/
theorem c2_counterexample :
    isValidNASAValue (.num (-900)) = false ∧
    JSVal.num (-900) ≠ .undef ∧ JSVal.num (-900) ≠ .null ∧
    (-900 : ℚ) ≠ -999 ∧ ¬((-900 : ℚ) < -900) := by
  refine ⟨by decide, by decide, by decide, by norm_num, by norm_num⟩

/-- C2 amended: `isValidNASAValue(value)` is true unless value is
undefined, null, or **not strictly greater than** `-900` (so `-999` and
`-900` itself are both rejected); for a number it is true exactly when
the value exceeds `-900`, and the spec's example values behave as
stated. -/
theorem c2_amended :
    (∀ q : ℚ, isValidNASAValue (.num q) = true ↔ -900 < q) ∧
    isValidNASAValue .undef = false ∧
    isValidNASAValue .null = false ∧
    isValidNASAValue (.num (-999)) = false ∧
    isValidNASAValue (.num (-900.1)) = false ∧
    isValidNASAValue (.num (-899.9)) = true ∧
    isValidNASAValue (.num (-900)) = false := by
  have hm : ¬((-900.1 : ℚ) > -900) := by norm_num
  have hp1 : ((-899.9 : ℚ) ≠ -999) := by norm_num
  have hp2 : ((-899.9 : ℚ) > -900) := by norm_num
  refine ⟨?_, by decide, by decide, by decide,
    by simp [isValidNASAValue, hm], by simp [isValidNASAValue, hp1, hp2], by decide⟩
  intro q
  simp only [isValidNASAValue, Bool.and_eq_true, decide_eq_true_eq, gt_iff_lt]
  constructor
  · rintro ⟨-, h⟩
    exact h
  · intro h
    refine ⟨fun e => ?_, h⟩
    rw [e] at h
    norm_num at h

/-- C3: `getValidNASAValue(value, fallback)` returns the fallback exactly
when the value is invalid, and the value unchanged otherwise. -/
theorem c3_resolve (v d : JSVal) :
    (isValidNASAValue v = false → getValidNASAValue v d = d) ∧
    (isValidNASAValue v = true → getValidNASAValue v d = v) := by
  constructor <;> intro h <;> simp [getValidNASAValue, h]

/-- C3 witness: a valid value passes through, an invalid one is replaced. -/
theorem c3_resolve_witness :
    getValidNASAValue (.num 7) (.num 0) = .num 7 ∧
    getValidNASAValue (.num (-999)) (.num 0) = .num 0 :=
  ⟨(c3_resolve (.num 7) (.num 0)).2 (by decide),
   (c3_resolve (.num (-999)) (.num 0)).1 (by decide)⟩

/-- C6: the feels-like computation branches exactly as specified —
desert dry heat at `temp ≥ 30`, desert wind chill at `temp ≤ 15` with
wind above 2 m/s, heat index at `temp ≥ 27` outside deserts, wind chill
at `temp ≤ 10` with wind above 1.34 m/s, and identity otherwise
(`pw` abbreviates `(windSpeed·3.6)^0.16`). -/
theorem c6_feels_like (temp humidity windSpeed pw : ℚ) :
    (temp ≥ 30 →
      calculateNASA_FeelsLike temp humidity windSpeed true pw = temp + (temp - 25) * 0.1) ∧
    (temp ≤ 15 → windSpeed > 2 →
      calculateNASA_FeelsLike temp humidity windSpeed true pw =
        13.12 + 0.6215 * temp - 11.37 * pw + 0.3965 * temp * pw) ∧
    (¬temp ≥ 30 → ¬(temp ≤ 15 ∧ windSpeed > 2) →
      calculateNASA_FeelsLike temp humidity windSpeed true pw = temp) ∧
    (temp ≥ 27 →
      calculateNASA_FeelsLike temp humidity windSpeed false pw =
        temp + 0.5 * (humidity / 100) * (temp - 20)) ∧
    (temp ≤ 10 → windSpeed > 1.34 →
      calculateNASA_FeelsLike temp humidity windSpeed false pw =
        13.12 + 0.6215 * temp - 11.37 * pw + 0.3965 * temp * pw) ∧
    (¬temp ≥ 27 → ¬(temp ≤ 10 ∧ windSpeed > 1.34) →
      calculateNASA_FeelsLike temp humidity windSpeed false pw = temp) := by
  refine ⟨fun h => ?_, fun h1 h2 => ?_, fun h1 h2 => ?_, fun h => ?_, fun h1 h2 => ?_,
    fun h1 h2 => ?_⟩ <;>
    simp only [calculateNASA_FeelsLike, if_true, Bool.false_eq_true, if_false] <;>
    [skip; rw [if_neg (by linarith), if_pos ⟨h1, h2⟩]; rw [if_neg h1, if_neg h2];
     skip; rw [if_neg (by linarith), if_pos ⟨h1, h2⟩]; rw [if_neg h1, if_neg h2]] <;>
    first
      | rfl
      | rw [if_pos h]

/-- C6 witness: desert, temp 35 °C, humidity 20 %, wind 1 m/s gives
`35 + (35 − 25)·0.1 = 36.0`. -/
theorem c6_feels_like_witness : calculateNASA_FeelsLike 35 20 1 true 1 = 36 := by
  have h := (c6_feels_like 35 20 1 1).1 (by norm_num)
  rw [h]
  norm_num

/-- C4: for every coordinate in range, `isDesertRegion` holds iff the
point lies in at least one of the eight literal boxes of spec §4.2,
with all four box edges inclusive. -/
theorem c4_desert_boxes (lat lon : ℚ) (h1 : -90 ≤ lat) (h2 : lat ≤ 90)
    (h3 : -180 ≤ lon) (h4 : lon ≤ 180) :
    isDesertRegion (some lat) (some lon) = true ↔ specDesertBoxes lat lon := by
  simp [isDesertRegion, DESERT_REGIONS, qGeB, qLeB, specDesertBoxes, and_assoc]

/-- C4 witness: (20, 0) lies in the Sahara box and is classified desert. -/
theorem c4_desert_boxes_witness : isDesertRegion (some 20) (some 0) = true :=
  (c4_desert_boxes 20 0 (by norm_num) (by norm_num) (by norm_num) (by norm_num)).mpr
    (Or.inl (by norm_num))

theorem wrapDown_step (x : ℚ) (h : x > 180) : wrapDown x = wrapDown (x - 360) := by
  rw [wrapDown, dif_pos h]

theorem wrapDown_id (x : ℚ) (h : ¬x > 180) : wrapDown x = x := by
  rw [wrapDown, dif_neg h]

theorem wrapUp_step (x : ℚ) (h : x < -180) : wrapUp x = wrapUp (x + 360) := by
  rw [wrapUp, dif_pos h]

theorem wrapUp_id (x : ℚ) (h : ¬x < -180) : wrapUp x = x := by
  rw [wrapUp, dif_neg h]

theorem wrapDown_le (x : ℚ) : wrapDown x ≤ 180 := by
  induction x using wrapDown.induct with
  | case1 x h ih =>
    rw [wrapDown_step x h]
    exact ih
  | case2 x h =>
    rw [wrapDown_id x h]
    linarith

theorem wrapDown_shift (x : ℚ) : ∃ k : ℤ, wrapDown x = x + 360 * k := by
  induction x using wrapDown.induct with
  | case1 x h ih =>
    obtain ⟨k, hk⟩ := ih
    refine ⟨k - 1, ?_⟩
    rw [wrapDown_step x h, hk]
    push_cast
    ring
  | case2 x h =>
    exact ⟨0, by rw [wrapDown_id x h]; ring⟩

theorem wrapUp_ge (x : ℚ) : -180 ≤ wrapUp x := by
  induction x using wrapUp.induct with
  | case1 x h ih =>
    rw [wrapUp_step x h]
    exact ih
  | case2 x h =>
    rw [wrapUp_id x h]
    linarith

theorem wrapUp_le (x : ℚ) (hx : x ≤ 180) : wrapUp x ≤ 180 := by
  induction x using wrapUp.induct with
  | case1 x h ih =>
    rw [wrapUp_step x h]
    exact ih (by linarith)
  | case2 x h =>
    rw [wrapUp_id x h]
    exact hx

theorem wrapUp_shift (x : ℚ) : ∃ k : ℤ, wrapUp x = x + 360 * k := by
  induction x using wrapUp.induct with
  | case1 x h ih =>
    obtain ⟨k, hk⟩ := ih
    refine ⟨k + 1, ?_⟩
    rw [wrapUp_step x h, hk]
    push_cast
    ring
  | case2 x h =>
    exact ⟨0, by rw [wrapUp_id x h]; ring⟩

/-- C5: `validateCoordinate` normalizes 190° to −170° and −190° to 170°,
returns every in-range latitude unchanged, rejects latitudes outside
[-90, 90] (e.g. 91 → null), and wraps every longitude into [-180, 180]
by adding an integer multiple of 360. -/
theorem c5_validate_coordinate :
    validateCoordinate (some 190) .lon = some (-170) ∧
    validateCoordinate (some (-190)) .lon = some 170 ∧
    validateCoordinate (some 91) .lat = none ∧
    (∀ q : ℚ, -90 ≤ q → q ≤ 90 → validateCoordinate (some q) .lat = some q) ∧
    (∀ q : ℚ, q < -90 ∨ 90 < q → validateCoordinate (some q) .lat = none) ∧
    (∀ q : ℚ, ∃ r k, validateCoordinate (some q) .lon = some r ∧
      -180 ≤ r ∧ r ≤ 180 ∧ r = q + 360 * (k : ℤ)) := by
  refine ⟨?_, ?_, ?_, ?_, ?_, ?_⟩
  · show some (wrapUp (wrapDown 190)) = some (-170)
    have h1 : wrapDown (190 : ℚ) = -170 := by
      rw [wrapDown_step 190 (by norm_num)]
      norm_num
      rw [wrapDown_id _ (by norm_num)]
    rw [h1, wrapUp_id _ (by norm_num)]
  · show some (wrapUp (wrapDown (-190))) = some 170
    have h1 : wrapDown (-190 : ℚ) = -190 := wrapDown_id _ (by norm_num)
    rw [h1, wrapUp_step _ (by norm_num)]
    norm_num
    rw [wrapUp_id _ (by norm_num)]
  · simp [validateCoordinate]
    norm_num
  · intro q hq1 hq2
    simp [validateCoordinate, hq1, hq2]
  · intro q hq
    rcases hq with h | h <;> simp [validateCoordinate] <;> intros <;> linarith
  · intro q
    obtain ⟨k1, hk1⟩ := wrapDown_shift q
    obtain ⟨k2, hk2⟩ := wrapUp_shift (wrapDown q)
    refine ⟨wrapUp (wrapDown q), k1 + k2, rfl, wrapUp_ge _, wrapUp_le _ (wrapDown_le q), ?_⟩
    rw [hk2, hk1]
    push_cast
    ring

/-- C5 witness: an in-range latitude (45°) passes through unchanged. -/
theorem c5_validate_coordinate_witness : validateCoordinate (some 45) .lat = some 45 :=
  c5_validate_coordinate.2.2.2.1 45 (by norm_num) (by norm_num)

/-- C7: for every threshold dimension present and a non-empty provided
historical series, the estimator returns
`round(100 · #{samples strictly greater than the threshold} / #samples)`
as an integer percent, and an absent threshold produces no key
(`none`), not a zero. -/
theorem c7_probabilities (wd : WeatherObj) (th : Thresholds) (h : HistoricalData) (env : Env) :
    (∀ θ : ℚ, th.temperature = some θ → h.temperature ≠ [] →
      (calculateProbabilities wd th (some h) env).temperature_above =
        some (jsRound (100 * ((h.temperature.countP fun x => decide (x > θ)) : ℚ) /
          (h.temperature.length : ℚ)))) ∧
    (∀ θ : ℚ, th.precipitation = some θ → h.precipitation ≠ [] →
      (calculateProbabilities wd th (some h) env).precipitation_above =
        some (jsRound (100 * ((h.precipitation.countP fun x => decide (x > θ)) : ℚ) /
          (h.precipitation.length : ℚ)))) ∧
    (∀ θ : ℚ, th.windSpeed = some θ → h.wind ≠ [] →
      (calculateProbabilities wd th (some h) env).windspeed_above =
        some (jsRound (100 * ((h.wind.countP fun x => decide (x > θ)) : ℚ) /
          (h.wind.length : ℚ)))) ∧
    (th.temperature = none →
      (calculateProbabilities wd th (some h) env).temperature_above = none) ∧
    (th.precipitation = none →
      (calculateProbabilities wd th (some h) env).precipitation_above = none) ∧
    (th.windSpeed = none →
      (calculateProbabilities wd th (some h) env).windspeed_above = none) := by
  refine ⟨fun θ hθ hne => ?_, fun θ hθ hne => ?_, fun θ hθ hne => ?_,
    fun hθ => ?_, fun hθ => ?_, fun hθ => ?_⟩ <;>
    simp only [calculateProbabilities, hθ, calculateTemperatureProbability,
      calculatePrecipitationProbability, calculateWindProbability] <;>
    rw [if_neg (by simpa [List.isEmpty_iff] using hne)] <;>
    congr 1 <;>
    congr 1 <;>
    ring

/-- C7 witness: series [1,2,3,4,5] with threshold 3 gives 40 % for the
present dimension and no key for an absent one. -/
theorem c7_probabilities_witness :
    (calculateProbabilities
        { current := none, forecast := none, location := none, data_source := none,
          nasa_mission := none, climate_note := none, disclaimer := none,
          historicalData := none, lat := none, lon := none, isDesert := none }
        { temperature := some 3, precipitation := none, windSpeed := none }
        (some { temperature := [1, 2, 3, 4, 5], precipitation := [], wind := [],
                humidity := [] })
        { seasonal := 0, diurnal := 0, rand := fun _ => 0, pow016 := fun _ => 0,
          parseFloat := fun _ => none, dateStr := fun _ => "", locationName := none,
          nowISO := "" }).temperature_above = some 40 ∧
    (calculateProbabilities
        { current := none, forecast := none, location := none, data_source := none,
          nasa_mission := none, climate_note := none, disclaimer := none,
          historicalData := none, lat := none, lon := none, isDesert := none }
        { temperature := some 3, precipitation := none, windSpeed := none }
        (some { temperature := [1, 2, 3, 4, 5], precipitation := [], wind := [],
                humidity := [] })
        { seasonal := 0, diurnal := 0, rand := fun _ => 0, pow016 := fun _ => 0,
          parseFloat := fun _ => none, dateStr := fun _ => "", locationName := none,
          nowISO := "" }).precipitation_above = none := by
  constructor
  · rw [(c7_probabilities _ _ _ _).1 3 rfl (by decide)]
    norm_num [jsRound]
  · exact (c7_probabilities _ _ _ _).2.2.2.2.1 rfl

/-- C9 counterexample: at precipitation 13 the claim's mapping
(`>12 → "Thunderstorm"` in *both* variants) predicts "Thunderstorm",
but the POWER cloud-cover variant answers "Heavy Rain" — its thresholds
are `>10, >5, >2, >0` and it never produces "Thunderstorm". -/
theorem c9_counterexample :
    getNASA_ConditionsFromPOWER 13 50 false = "Heavy Rain" ∧
    getNASA_ConditionsFromPOWER 13 50 false ≠ "Thunderstorm" ∧
    getNASA_WeatherCondition 13 50 false = "Thunderstorm" := by
  refine ⟨by decide, by decide, by decide⟩

set_option maxHeartbeats 1000000 in
/-- C9 amended: the two variants use different precipitation tables —
POWER: `>10 → Heavy Rain, >5 → Rain, >2 → Light Rain, >0 → Drizzle`
(no Thunderstorm); generic: `>12 → Thunderstorm, >6 → Heavy Rain,
>2 → Rain, >0 → Light Rain` (no Drizzle); and the generic desert
variant answers "Clear and Dry" exactly when the point is desert,
precipitation is not positive and humidity < 25 %. -/
theorem c9_amended (p c h : ℚ) (d : Bool) :
    (10 < p → getNASA_ConditionsFromPOWER p c d = "Heavy Rain") ∧
    (5 < p → p ≤ 10 → getNASA_ConditionsFromPOWER p c d = "Rain") ∧
    (2 < p → p ≤ 5 → getNASA_ConditionsFromPOWER p c d = "Light Rain") ∧
    (0 < p → p ≤ 2 → getNASA_ConditionsFromPOWER p c d = "Drizzle") ∧
    (12 < p → getNASA_WeatherCondition p h d = "Thunderstorm") ∧
    (6 < p → p ≤ 12 → getNASA_WeatherCondition p h d = "Heavy Rain") ∧
    (2 < p → p ≤ 6 → getNASA_WeatherCondition p h d = "Rain") ∧
    (0 < p → p ≤ 2 → getNASA_WeatherCondition p h d = "Light Rain") ∧
    (getNASA_WeatherCondition p h d = "Clear and Dry" ↔ d = true ∧ p ≤ 0 ∧ h < 25) := by
  refine ⟨fun h1 => ?_, fun h1 h2 => ?_, fun h1 h2 => ?_, fun h1 h2 => ?_,
    fun h1 => ?_, fun h1 h2 => ?_, fun h1 h2 => ?_, fun h1 h2 => ?_, ?_⟩
  · simp only [getNASA_ConditionsFromPOWER]
    rw [if_pos (by linarith)]
  · simp only [getNASA_ConditionsFromPOWER]
    rw [if_neg (by linarith), if_pos (by linarith)]
  · simp only [getNASA_ConditionsFromPOWER]
    rw [if_neg (by linarith), if_neg (by linarith), if_pos (by linarith)]
  · simp only [getNASA_ConditionsFromPOWER]
    rw [if_neg (by linarith), if_neg (by linarith), if_neg (by linarith),
      if_pos (by linarith)]
  · simp only [getNASA_WeatherCondition]
    rw [if_pos (by linarith)]
  · simp only [getNASA_WeatherCondition]
    rw [if_neg (by linarith), if_pos (by linarith)]
  · simp only [getNASA_WeatherCondition]
    rw [if_neg (by linarith), if_neg (by linarith), if_pos (by linarith)]
  · simp only [getNASA_WeatherCondition]
    rw [if_neg (by linarith), if_neg (by linarith), if_neg (by linarith),
      if_pos (by linarith)]
  · constructor
    · intro he
      simp only [getNASA_WeatherCondition] at he
      split_ifs at he with h1 h2 h3 h4 h5 h6 h7 h8 h9 h10
      all_goals
        first
          | (simp only [Bool.and_eq_true, decide_eq_true_eq] at h8
             exact ⟨h8.1, not_lt.mp h4, h8.2⟩)
          | simp at he
    · rintro ⟨hd, hp, hh⟩
      subst hd
      simp only [getNASA_WeatherCondition]
      split_ifs with h1 h2 h3 h4 h5 h6 h7 h8 h9 h10
      all_goals first | rfl | linarith | simp [hh] at h8

/-- C9 amended witness: precipitation 11 is "Heavy Rain" for the POWER
variant but already "Heavy Rain" (not Rain) only above 6 for the
generic variant. -/
theorem c9_amended_witness :
    getNASA_ConditionsFromPOWER 11 50 false = "Heavy Rain" ∧
    getNASA_WeatherCondition 1 50 false = "Light Rain" :=
  ⟨(c9_amended 11 50 50 false).1 (by norm_num),
   (c9_amended 1 50 50 false).2.2.2.2.2.2.2.1 (by norm_num) (by norm_num)⟩

theorem jsRound_intCast (k : ℤ) : jsRound (k : ℚ) = k := by
  rw [jsRound, Int.floor_int_add]
  norm_num

theorem formatToOneDecimal_num (q : ℚ) :
    formatToOneDecimal (.num q) = .num ((jsRound (q * 10) : ℚ) / 10) := rfl

theorem formatToOneDecimal_tenth_fixed (k : ℤ) :
    formatToOneDecimal (.num ((k : ℚ) / 10)) = .num ((k : ℚ) / 10) := by
  rw [formatToOneDecimal_num]
  have h : (k : ℚ) / 10 * 10 = (k : ℚ) := by ring
  rw [h, jsRound_intCast]

/-- One-decimal rounding is idempotent on every JS value. -/
theorem formatToOneDecimal_idem (v : JSVal) :
    formatToOneDecimal (formatToOneDecimal v) = formatToOneDecimal v := by
  cases v with
  | undef => rfl
  | null => rfl
  | nan => rfl
  | num q =>
    rw [formatToOneDecimal_num]
    exact formatToOneDecimal_tenth_fixed _
  | str s =>
    cases hs : strToNumberQ s with
    | none =>
      simp [formatToOneDecimal, jsToNumber, hs]
    | some q =>
      have h1 : formatToOneDecimal (.str s) = .num ((jsRound (q * 10) : ℚ) / 10) := by
        simp [formatToOneDecimal, jsToNumber, hs]
      rw [h1]
      exact formatToOneDecimal_tenth_fixed _

theorem formatToOneDecimal_ne_undef (v : JSVal) (h : v ≠ .undef) :
    formatToOneDecimal v ≠ .undef := by
  cases v with
  | undef => exact absurd rfl h
  | null => simp [formatToOneDecimal, jsToNumber]
  | nan => simp [formatToOneDecimal, jsToNumber]
  | num q => simp [formatToOneDecimal, jsToNumber]
  | str s =>
    cases hs : strToNumberQ s with
    | none => simp [formatToOneDecimal, jsToNumber, hs]
    | some q => simp [formatToOneDecimal, jsToNumber, hs]

/-- The `!== undefined`-guarded one-decimal rounding (as applied to
`wind_speed_50m` and `solar_radiation`) is idempotent. -/
theorem guarded_formatToOneDecimal_idem (v : JSVal) :
    (if (if v ≠ JSVal.undef then formatToOneDecimal v else v) ≠ JSVal.undef then
      formatToOneDecimal (if v ≠ JSVal.undef then formatToOneDecimal v else v)
    else (if v ≠ JSVal.undef then formatToOneDecimal v else v)) =
    (if v ≠ JSVal.undef then formatToOneDecimal v else v) := by
  by_cases h : v = JSVal.undef
  · subst h
    simp
  · rw [if_pos h, if_pos (formatToOneDecimal_ne_undef v h)]
    exact formatToOneDecimal_idem v

theorem charsAreDigits_pct (l : List Char) : charsAreDigits (l ++ ['%']) = false := by
  induction l with
  | nil => rfl
  | cons c cs ih => simp [charsAreDigits, ih]

/-- A percent-suffixed string is not numeric: JS `ToNumber` yields NaN. -/
theorem strToNumberQ_pct (t : String) : strToNumberQ (t ++ "%") = none := by
  have hdata : (t ++ "%").toList = t.toList ++ ['%'] := rfl
  rw [strToNumberQ, hdata]
  cases h : t.toList with
  | nil => simp [charsAreDigits]
  | cons c cs => simp [charsAreDigits, charsAreDigits_pct]

theorem formatPercentage_num (q : ℚ) :
    formatPercentage (.num q) = .str (toString (jsRound q) ++ "%") := rfl

/-- Percent-stringification is **not** idempotent: a second application
turns any percent string into `"NaN%"`. -/
theorem formatPercentage_pct (t : String) :
    formatPercentage (.str (t ++ "%")) = .str "NaN%" := by
  simp [formatPercentage, jsToNumber, strToNumberQ_pct]

theorem formatPercentage_num_twice (q : ℚ) :
    formatPercentage (formatPercentage (.num q)) = .str "NaN%" := by
  rw [formatPercentage_num, formatPercentage_pct]

theorem currentProj_idem (w : WeatherObj) (f : CurrentW → JSVal)
    (h : ∀ c, f (formatCurrent (formatCurrent c)) = f (formatCurrent c)) :
    (formatWeatherData (formatWeatherData w)).current.map f =
      (formatWeatherData w).current.map f := by
  cases hc : w.current with
  | none => simp [formatWeatherData, hc]
  | some c => simp [formatWeatherData, hc, h c]

theorem forecastProj_idem (w : WeatherObj) (f : ForecastDay → JSVal)
    (h : ∀ d, f (formatDay (formatDay d)) = f (formatDay d)) :
    (formatWeatherData (formatWeatherData w)).forecast.map (List.map f) =
      (formatWeatherData w).forecast.map (List.map f) := by
  cases hf : w.forecast with
  | none => simp [formatWeatherData, hf]
  | some days =>
    simp only [formatWeatherData, hf, Option.map_some', List.map_map]
    congr 1
    apply List.map_congr_left
    intro d _
    simpa [Function.comp] using h d

theorem guarded_formatPercentage_num_twice (q : ℚ) :
    (if (if JSVal.num q ≠ JSVal.undef then formatPercentage (.num q) else .num q) ≠ JSVal.undef
     then formatPercentage (if JSVal.num q ≠ JSVal.undef then formatPercentage (.num q)
       else .num q)
     else (if JSVal.num q ≠ JSVal.undef then formatPercentage (.num q) else .num q)) =
    .str "NaN%" := by
  have h1 : (if JSVal.num q ≠ JSVal.undef then formatPercentage (.num q) else .num q) =
      .str (toString (jsRound q) ++ "%") := by
    rw [if_pos (by simp), formatPercentage_num]
  rw [h1, if_pos (by simp), formatPercentage_pct]

theorem formatCurrent_fieldwise_idem (c : CurrentW) :
    (formatCurrent (formatCurrent c)).temperature = (formatCurrent c).temperature ∧
    (formatCurrent (formatCurrent c)).temperature_max = (formatCurrent c).temperature_max ∧
    (formatCurrent (formatCurrent c)).temperature_min = (formatCurrent c).temperature_min ∧
    (formatCurrent (formatCurrent c)).wind_speed = (formatCurrent c).wind_speed ∧
    (formatCurrent (formatCurrent c)).wind_speed_50m = (formatCurrent c).wind_speed_50m ∧
    (formatCurrent (formatCurrent c)).precipitation = (formatCurrent c).precipitation ∧
    (formatCurrent (formatCurrent c)).pressure = (formatCurrent c).pressure ∧
    (formatCurrent (formatCurrent c)).solar_radiation = (formatCurrent c).solar_radiation ∧
    (formatCurrent (formatCurrent c)).feels_like = (formatCurrent c).feels_like := by
  refine ⟨?_, ?_, ?_, ?_, ?_, ?_, ?_, ?_, ?_⟩
  case refine_5 => exact guarded_formatToOneDecimal_idem c.wind_speed_50m
  case refine_8 => exact guarded_formatToOneDecimal_idem c.solar_radiation
  all_goals simp [formatCurrent, formatToOneDecimal_idem]

theorem formatDay_fieldwise_idem (d : ForecastDay) :
    (formatDay (formatDay d)).temperature = (formatDay d).temperature ∧
    (formatDay (formatDay d)).max_temp = (formatDay d).max_temp ∧
    (formatDay (formatDay d)).min_temp = (formatDay d).min_temp ∧
    (formatDay (formatDay d)).precipitation = (formatDay d).precipitation ∧
    (formatDay (formatDay d)).wind_speed = (formatDay d).wind_speed ∧
    (formatDay (formatDay d)).pressure = (formatDay d).pressure ∧
    (formatDay (formatDay d)).feels_like = (formatDay d).feels_like := by
  refine ⟨?_, ?_, ?_, ?_, ?_, ?_, ?_⟩ <;>
    simp [formatDay, formatToOneDecimal_idem]

/-- C8 counterexample: on an already-formatted object a second
`formatWeatherData` is *not* the identity — the humidity `"65%"` string
is re-coerced to NaN and stringified as `"NaN%"`. -/
theorem c8_counterexample :
    formatWeatherData (formatWeatherData sampleWeather) ≠ formatWeatherData sampleWeather ∧
    (formatWeatherData sampleWeather).current.map CurrentW.humidity =
      some (.str "65%") ∧
    (formatWeatherData (formatWeatherData sampleWeather)).current.map CurrentW.humidity =
      some (.str "NaN%") := by
  have hr : jsRound (65 : ℚ) = 65 := by norm_num [jsRound]
  have h1 : (formatWeatherData sampleWeather).current.map CurrentW.humidity =
      some (.str "65%") := by
    simp only [sampleWeather, formatWeatherData, Option.map_some', formatCurrent,
      formatPercentage_num, hr]
    rfl
  have h2 : (formatWeatherData (formatWeatherData sampleWeather)).current.map
      CurrentW.humidity = some (.str "NaN%") := by
    simp only [sampleWeather, formatWeatherData, Option.map_some', formatCurrent,
      formatPercentage_num_twice]
  refine ⟨fun he => ?_, h1, h2⟩
  rw [he, h1] at h2
  simp at h2

/-- C8 amended: one-decimal rounding is idempotent, so a second
application of the formatter leaves every temperature / wind / pressure
/ precipitation / feels-like field of the current record and of every
forecast day unchanged; but percent-stringification is not idempotent —
a second application maps an already-stringified numeric humidity or
cloud cover to the string `"NaN%"`. -/
theorem c8_amended (w : WeatherObj) :
    (∀ v, formatToOneDecimal (formatToOneDecimal v) = formatToOneDecimal v) ∧
    (∀ q : ℚ, formatPercentage (formatPercentage (.num q)) = .str "NaN%") ∧
    (formatWeatherData (formatWeatherData w)).current.map CurrentW.temperature =
      (formatWeatherData w).current.map CurrentW.temperature ∧
    (formatWeatherData (formatWeatherData w)).current.map CurrentW.temperature_max =
      (formatWeatherData w).current.map CurrentW.temperature_max ∧
    (formatWeatherData (formatWeatherData w)).current.map CurrentW.temperature_min =
      (formatWeatherData w).current.map CurrentW.temperature_min ∧
    (formatWeatherData (formatWeatherData w)).current.map CurrentW.wind_speed =
      (formatWeatherData w).current.map CurrentW.wind_speed ∧
    (formatWeatherData (formatWeatherData w)).current.map CurrentW.wind_speed_50m =
      (formatWeatherData w).current.map CurrentW.wind_speed_50m ∧
    (formatWeatherData (formatWeatherData w)).current.map CurrentW.precipitation =
      (formatWeatherData w).current.map CurrentW.precipitation ∧
    (formatWeatherData (formatWeatherData w)).current.map CurrentW.pressure =
      (formatWeatherData w).current.map CurrentW.pressure ∧
    (formatWeatherData (formatWeatherData w)).current.map CurrentW.solar_radiation =
      (formatWeatherData w).current.map CurrentW.solar_radiation ∧
    (formatWeatherData (formatWeatherData w)).current.map CurrentW.feels_like =
      (formatWeatherData w).current.map CurrentW.feels_like ∧
    (formatWeatherData (formatWeatherData w)).forecast.map (List.map ForecastDay.temperature) =
      (formatWeatherData w).forecast.map (List.map ForecastDay.temperature) ∧
    (formatWeatherData (formatWeatherData w)).forecast.map (List.map ForecastDay.max_temp) =
      (formatWeatherData w).forecast.map (List.map ForecastDay.max_temp) ∧
    (formatWeatherData (formatWeatherData w)).forecast.map (List.map ForecastDay.min_temp) =
      (formatWeatherData w).forecast.map (List.map ForecastDay.min_temp) ∧
    (formatWeatherData (formatWeatherData w)).forecast.map (List.map ForecastDay.precipitation) =
      (formatWeatherData w).forecast.map (List.map ForecastDay.precipitation) ∧
    (formatWeatherData (formatWeatherData w)).forecast.map (List.map ForecastDay.wind_speed) =
      (formatWeatherData w).forecast.map (List.map ForecastDay.wind_speed) ∧
    (formatWeatherData (formatWeatherData w)).forecast.map (List.map ForecastDay.pressure) =
      (formatWeatherData w).forecast.map (List.map ForecastDay.pressure) ∧
    (formatWeatherData (formatWeatherData w)).forecast.map (List.map ForecastDay.feels_like) =
      (formatWeatherData w).forecast.map (List.map ForecastDay.feels_like) ∧
    (∀ c q, w.current = some c → c.humidity = .num q →
      (formatWeatherData (formatWeatherData w)).current.map CurrentW.humidity =
        some (.str "NaN%")) ∧
    (∀ c q, w.current = some c → c.cloud_cover = .num q →
      (formatWeatherData (formatWeatherData w)).current.map CurrentW.cloud_cover =
        some (.str "NaN%")) := by
  refine ⟨formatToOneDecimal_idem, formatPercentage_num_twice,
    currentProj_idem w _ (fun c => (formatCurrent_fieldwise_idem c).1),
    currentProj_idem w _ (fun c => (formatCurrent_fieldwise_idem c).2.1),
    currentProj_idem w _ (fun c => (formatCurrent_fieldwise_idem c).2.2.1),
    currentProj_idem w _ (fun c => (formatCurrent_fieldwise_idem c).2.2.2.1),
    currentProj_idem w _ (fun c => (formatCurrent_fieldwise_idem c).2.2.2.2.1),
    currentProj_idem w _ (fun c => (formatCurrent_fieldwise_idem c).2.2.2.2.2.1),
    currentProj_idem w _ (fun c => (formatCurrent_fieldwise_idem c).2.2.2.2.2.2.1),
    currentProj_idem w _ (fun c => (formatCurrent_fieldwise_idem c).2.2.2.2.2.2.2.1),
    currentProj_idem w _ (fun c => (formatCurrent_fieldwise_idem c).2.2.2.2.2.2.2.2),
    forecastProj_idem w _ (fun d => (formatDay_fieldwise_idem d).1),
    forecastProj_idem w _ (fun d => (formatDay_fieldwise_idem d).2.1),
    forecastProj_idem w _ (fun d => (formatDay_fieldwise_idem d).2.2.1),
    forecastProj_idem w _ (fun d => (formatDay_fieldwise_idem d).2.2.2.1),
    forecastProj_idem w _ (fun d => (formatDay_fieldwise_idem d).2.2.2.2.1),
    forecastProj_idem w _ (fun d => (formatDay_fieldwise_idem d).2.2.2.2.2.1),
    forecastProj_idem w _ (fun d => (formatDay_fieldwise_idem d).2.2.2.2.2.2),
    fun c q hc hq => ?_, fun c q hc hq => ?_⟩
  · have hhum : (formatCurrent (formatCurrent c)).humidity =
        formatPercentage (formatPercentage c.humidity) := by
      simp [formatCurrent]
    simp only [formatWeatherData, hc, Option.map_some']
    rw [hhum, hq, formatPercentage_num_twice]
  · have hcc : (formatCurrent (formatCurrent c)).cloud_cover = .str "NaN%" := by
      simp only [formatCurrent]
      rw [hq]
      exact guarded_formatPercentage_num_twice q
    simp only [formatWeatherData, hc, Option.map_some']
    rw [hcc]

/-- C8 amended witness: on the concrete sample, the already-stringified
humidity becomes `"NaN%"` on the second pass. -/
theorem c8_amended_witness :
    (formatWeatherData (formatWeatherData sampleWeather)).current.map CurrentW.humidity =
      some (.str "NaN%") :=
  (c8_amended sampleWeather).2.2.2.2.2.2.2.2.2.2.2.2.2.2.2.2.2.2.1 _ 65 rfl rfl

theorem formatWeatherData_data_source (w : WeatherObj) :
    (formatWeatherData w).data_source = w.data_source := rfl

theorem generateNASA_ClimateForecast_length (lat lon : Option ℚ) (d : Bool) (env : Env) :
    (generateNASA_ClimateForecast lat lon d env).length = 7 := by
  simp [generateNASA_ClimateForecast]

/-- C1: with the `lat` and `lon` query parameters present and all three
provider adapters returning null, the route answers HTTP 200 with a
body whose `data_source` is "NASA Climate Simulation", whose forecast
has 7 days and whose current record is present — on the normal path and
on the catch path alike; no error escapes to the caller. -/
theorem c1_all_adapters_null (latStr lonStr : Option String) (uth : Thresholds)
    (tne : Bool) (env : Env)
    (hlat : strTruthy latStr = true) (hlon : strTruthy lonStr = true) :
    ∃ body : ResponseBody,
      weatherRoute latStr lonStr uth tne ⟨none, none, none⟩ env = .ok 200 body ∧
      body.weather.data_source = some "NASA Climate Simulation" ∧
      (∃ fc, body.weather.forecast = some fc ∧ fc.length = 7) ∧
      body.weather.current.isSome = true := by
  rw [weatherRoute, hlat, hlon]
  simp only [Bool.not_true, Bool.or_self, Bool.false_eq_true, if_false]
  by_cases hf : (optFalsy (validateCoordinate (latStr.bind env.parseFloat) .lat) ||
      optFalsy (validateCoordinate (lonStr.bind env.parseFloat) .lon)) = true
  · rw [if_pos hf]
    refine ⟨_, rfl, rfl, ⟨_, rfl, ?_⟩, rfl⟩
    simp [generateNASA_Model_Data, generateNASA_ClimateForecast_length]
  · rw [if_neg hf]
    refine ⟨_, rfl, rfl, ⟨_, rfl, ?_⟩, rfl⟩
    simp [generateNASA_Model_Data, generateNASA_ClimateForecast_length]

/-- C1 witness: a concrete request with both parameters present and all
adapters down. -/
theorem c1_all_adapters_null_witness :
    ∃ body : ResponseBody,
      weatherRoute (some "10") (some "20")
          { temperature := none, precipitation := none, windSpeed := none } false
          ⟨none, none, none⟩
          { seasonal := 0, diurnal := 0, rand := fun _ => 0, pow016 := fun _ => 0,
            parseFloat := fun _ => some 10, dateStr := fun _ => "", locationName := none,
            nowISO := "" } = .ok 200 body ∧
      body.weather.data_source = some "NASA Climate Simulation" ∧
      (∃ fc, body.weather.forecast = some fc ∧ fc.length = 7) ∧
      body.weather.current.isSome = true :=
  c1_all_adapters_null (some "10") (some "20") _ false _ (by decide) (by decide)

/-- C10: a request whose latitude (or longitude) parses to the number 0
— a coordinate `validateCoordinate` accepts and returns — trips the
handler's falsy guard `!validatedLat || !validatedLon`, so the request
is served by the catch path: HTTP 200, Synthetic Climate Model data
(`data_quality` "NASA Climate Model Simulation", `data_source`
"NASA Climate Simulation"), and the answer is independent of whatever
the provider adapters would have returned. -/
theorem c10_zero_coordinate (latStr lonStr : Option String) (uth : Thresholds) (tne : Bool)
    (pr : ProviderResults) (env : Env)
    (hlat : strTruthy latStr = true) (hlon : strTruthy lonStr = true)
    (hzero : latStr.bind env.parseFloat = some 0 ∨ lonStr.bind env.parseFloat = some 0) :
    weatherRoute latStr lonStr uth tne pr env =
      catchResponse (latStr.bind env.parseFloat) (lonStr.bind env.parseFloat) env ∧
    ∃ body : ResponseBody,
      catchResponse (latStr.bind env.parseFloat) (lonStr.bind env.parseFloat) env =
        .ok 200 body ∧
      body.weather.data_source = some "NASA Climate Simulation" ∧
      body.weather.current.map CurrentW.data_quality =
        some "NASA Climate Model Simulation" := by
  have hcond : (optFalsy (validateCoordinate (latStr.bind env.parseFloat) .lat) ||
      optFalsy (validateCoordinate (lonStr.bind env.parseFloat) .lon)) = true := by
    rw [Bool.or_eq_true]
    rcases hzero with h | h
    · left
      rw [h]
      norm_num [validateCoordinate, optFalsy]
    · right
      rw [h]
      show optFalsy (some (wrapUp (wrapDown 0))) = true
      rw [wrapDown_id 0 (by norm_num), wrapUp_id 0 (by norm_num)]
      rfl
  constructor
  · rw [weatherRoute, hlat, hlon]
    simp only [Bool.not_true, Bool.or_self, Bool.false_eq_true, if_false]
    rw [if_pos hcond]
  · exact ⟨_, rfl, rfl, rfl⟩

/-- C10 witness: the concrete request `lat=0&lon=20` is answered by the
catch path with synthetic data. -/
theorem c10_zero_coordinate_witness :
    weatherRoute (some "0") (some "20")
        { temperature := none, precipitation := none, windSpeed := none } false
        ⟨some sampleWeather, none, none⟩
        { seasonal := 0, diurnal := 0, rand := fun _ => 0, pow016 := fun _ => 0,
          parseFloat := fun s => if s = "0" then some 0 else some 20,
          dateStr := fun _ => "", locationName := none, nowISO := "" } =
      catchResponse ((some "0").bind fun s => if s = "0" then some 0 else some 20)
        ((some "20").bind fun s => if s = "0" then some 0 else some 20)
        { seasonal := 0, diurnal := 0, rand := fun _ => 0, pow016 := fun _ => 0,
          parseFloat := fun s => if s = "0" then some 0 else some 20,
          dateStr := fun _ => "", locationName := none, nowISO := "" } :=
  (c10_zero_coordinate (some "0") (some "20") _ false _ _ (by decide) (by decide)
    (Or.inl (by simp))).1

end SmartUnity
